import Mathlib

/-!
Verification of the account-workflow core of a small Flask application
(registration with email confirmation, login/logout, contact form).

The embedding models `src/app.py`:
* `User` mirrors the SQLAlchemy `User` model;
* `AppState` is the mutable world (user table, auto-increment id,
  session, and an outbox recording mail-dispatch attempts);
* `Env` packages the external collaborators (bcrypt hasher,
  `email_validator`, operator mail address) as opaque functions;
* `register`, `login`, `logout`, `confirm_email`, `contact` are the
  Flask route handlers, returning a `Result` (the flash category /
  error kind) together with the updated state;
* `Op`/`step`/`run` give the step relation over the public operations.
-/

namespace AppCore

/-- The discriminated result kinds of the workflow (the distinct flash
messages of `app.py`, named as in the spec). -/
inductive Result where
  | ok
  | validationError
  | passwordMismatch
  | invalidEmail
  | duplicateAccount
  | invalidOrExpiredToken
  | invalidCredentials
  | emailNotConfirmed
deriving DecidableEq, Repr

/-- The `User` SQLAlchemy model of `app.py` (lines 39-46). -/
structure User where
  id : Nat
  company_name : Option String
  email : String
  role : Option String
  password_hash : String
  is_confirmed : Bool
  confirm_token : Option String
deriving DecidableEq, Repr

/-- One recorded mail-dispatch attempt: recipient, subject, and whether
the SMTP send succeeded (`send_email` swallows failures). -/
structure MailAttempt where
  to_email : String
  subject : String
  delivered : Bool
deriving DecidableEq, Repr

/-- The mutable world: the `users` table (in insertion order, ids from
the auto-increment counter `nextId`), the Flask `session` user id, and
the outbox of mail-dispatch attempts. -/
structure AppState where
  users : List User
  nextId : Nat
  sessionUserId : Option Nat
  outbox : List MailAttempt
deriving DecidableEq, Repr

/-- The external collaborators of `app.py`, as opaque functions:
`hash` is `bcrypt.generate_password_hash`, `verify` is
`bcrypt.check_password_hash(stored_hash, password)`, `validEmail` is
the boolean outcome of `email_validator.validate_email`, and
`mailUsername` is the `MAIL_USERNAME` operator address. -/
structure Env where
  hash : String → String
  verify : String → String → Bool
  validEmail : String → Bool
  mailUsername : String

/-- The empty database with SQLAlchemy's auto-increment starting at 1,
no session, nothing sent. -/
def initState : AppState :=
  { users := [], nextId := 1, sessionUserId := none, outbox := [] }

/-- Python falsiness of a `request.form.get` value: `None` or `""`. -/
def isBlank : Option String → Bool
  | none => true
  | some s => s == ""

/-- Query `User.query.filter_by(email=email).first()` (lines 146, 181). -/
def find_by_email (users : List User) (e : String) : Option User :=
  users.find? (fun u => u.email == e)

/-- Query `User.query.filter_by(confirm_token=token).first()` (line 204). -/
def find_by_token (users : List User) (t : String) : Option User :=
  users.find? (fun u => u.confirm_token == some t)

/-- Number of accounts stored for a given email. -/
def countEmail (users : List User) (e : String) : Nat :=
  (users.filter (fun u => u.email == e)).length

/-- Number of accounts holding a given confirmation token. -/
def countToken (users : List User) (t : String) : Nat :=
  (users.filter (fun u => u.confirm_token == some t)).length

/-- Function `send_email` (lines 52-70): attempts the SMTP send and swallows any
failure; the only observable effect is the recorded attempt. -/
def send_email (mailOk : Bool) (st : AppState) (to_email subject : String) :
    AppState :=
  { st with outbox := st.outbox ++ [⟨to_email, subject, mailOk⟩] }

/-- The freshly inserted account of a successful `register` call
(lines 154-161 of `app.py`). -/
def freshUser (env : Env) (st : AppState)
    (company_name email role password : Option String) (token : String) :
    User :=
  { id := st.nextId
    company_name := company_name
    email := email.getD ""
    role := role
    password_hash := env.hash (password.getD "")
    is_confirmed := false
    confirm_token := some token }

/-- Route `register` (lines 124-169). `mailOk` is the outcome of the SMTP
dispatch, `token` the value drawn from `secrets.token_urlsafe(32)`. -/
def register (env : Env) (st : AppState)
    (company_name email role password password2 : Option String)
    (token : String) (mailOk : Bool) : Result × AppState :=
  if isBlank email || isBlank password || isBlank password2 then
    (.validationError, st)
  else if password != password2 then
    (.passwordMismatch, st)
  else if !env.validEmail (email.getD "") then
    (.invalidEmail, st)
  else
    match find_by_email st.users (email.getD "") with
    | some _ => (.duplicateAccount, st)
    | none =>
      let u : User := freshUser env st company_name email role password token
      let st1 : AppState :=
        { st with users := st.users ++ [u], nextId := st.nextId + 1 }
      let st2 := send_email mailOk st1 (email.getD "")
        "AI VideoGen - E-mail megerosites"
      (.ok, st2)

/-- Route `login` (lines 172-192). -/
def login (env : Env) (st : AppState) (email password : Option String) :
    Result × AppState :=
  if isBlank email || isBlank password then
    (.validationError, st)
  else
    match find_by_email st.users (email.getD "") with
    | none => (.invalidCredentials, st)
    | some u =>
      if !env.verify u.password_hash (password.getD "") then
        (.invalidCredentials, st)
      else if !u.is_confirmed then
        (.emailNotConfirmed, st)
      else
        (.ok, { st with sessionUserId := some u.id })

/-- Route `logout` (lines 195-199): unconditionally clears the session. -/
def logout (st : AppState) : Result × AppState :=
  (.ok, { st with sessionUserId := none })

/-- The mutation `user.is_confirmed = True; user.confirm_token = None`
performed by `confirm_email` (lines 209-210). -/
def confirmUser (u : User) : User :=
  { u with is_confirmed := true, confirm_token := none }

/-- Find the first user holding the token and apply `confirmUser` to it,
mirroring `filter_by(confirm_token=token).first()` plus the in-place
mutation; `none` when no user holds the token. -/
def confirmFirst : List User → String → Option (List User)
  | [], _ => none
  | u :: rest, t =>
    if u.confirm_token == some t then
      some (confirmUser u :: rest)
    else
      (confirmFirst rest t).map (fun l => u :: l)

/-- Route `confirm_email` (lines 202-214). -/
def confirm_email (st : AppState) (token : String) : Result × AppState :=
  match confirmFirst st.users token with
  | none => (.invalidOrExpiredToken, st)
  | some users1 => (.ok, { st with users := users1 })

/-- Route `contact` (lines 217-237): the contact-form forwarder; the message
goes to the operator address `MAIL_USERNAME`. -/
def contact (env : Env) (st : AppState)
    (name email subject message : Option String) (mailOk : Bool) :
    Result × AppState :=
  if isBlank name || isBlank email || isBlank subject || isBlank message then
    (.validationError, st)
  else if !env.validEmail (email.getD "") then
    (.invalidEmail, st)
  else
    (.ok, send_email mailOk st env.mailUsername
      ("AI VideoGen - uj kapcsolatfelvetel: " ++ subject.getD ""))

/-- One public operation of the application, with the oracle inputs
(fresh token, mail outcome) made explicit. -/
inductive Op where
  | register (company_name email role password password2 : Option String)
      (token : String) (mailOk : Bool)
  | confirm (token : String)
  | login (email password : Option String)
  | logout
  | contact (name email subject message : Option String) (mailOk : Bool)

/-- The step relation: run one public operation against the state. -/
def step (env : Env) (st : AppState) : Op → Result × AppState
  | .register cn e r p p2 tok mailOk => register env st cn e r p p2 tok mailOk
  | .confirm tok => confirm_email st tok
  | .login e p => login env st e p
  | .logout => logout st
  | .contact n e s m mailOk => contact env st n e s m mailOk

/-- Run a sequence of public operations from a starting state. -/
def runFrom (env : Env) (st : AppState) (ops : List Op) : AppState :=
  ops.foldl (fun s op => (step env s op).2) st

/-- Run a sequence of public operations from the initial empty state. -/
def run (env : Env) (ops : List Op) : AppState :=
  runFrom env initState ops

/-- The confirmation-shape invariant on a single account: unconfirmed
with a token, or confirmed with no token. -/
def shapeOk (u : User) : Prop :=
  (u.is_confirmed = false ∧ u.confirm_token ≠ none) ∨
  (u.is_confirmed = true ∧ u.confirm_token = none)

instance (u : User) : Decidable (shapeOk u) := by
  unfold shapeOk
  infer_instance

/-- A concrete environment used to evaluate the model on sample inputs:
a tagging hasher with matching verifier, and an email validator that
requires an `@`. -/
def testEnv : Env :=
  { hash := fun p => "H:" ++ p
    verify := fun h p => h == "H:" ++ p
    validEmail := fun e => e.data.contains '@'
    mailUsername := "operator@example.com" }

/-- A confirmed sample account, used to evaluate the model. -/
def sampleUserA : User :=
  { id := 1, company_name := none, email := "a@x.com", role := none,
    password_hash := "H:pw", is_confirmed := true, confirm_token := none }

/-- An unconfirmed sample account holding token `tok2`, used to evaluate
the model. -/
def sampleUserB : User :=
  { id := 2, company_name := some "ACME", email := "b@x.com",
    role := some "dev", password_hash := "H:pw2", is_confirmed := false,
    confirm_token := some "tok2" }

/-- A sample two-account state, used to evaluate the model. -/
def sampleState : AppState :=
  { users := [sampleUserA, sampleUserB], nextId := 3,
    sessionUserId := none, outbox := [] }

/-! ### Helper lemmas about `confirmFirst` -/

/-- Lemma: `confirmFirst` fails exactly when no stored account holds the token,
i.e. when `find_by_token` comes back empty. -/
theorem confirmFirst_eq_none_iff (users : List User) (t : String) :
    confirmFirst users t = none ↔ find_by_token users t = none := by
  induction users with
  | nil => simp [confirmFirst, find_by_token]
  | cons u rest ih =>
    by_cases h : (u.confirm_token == some t) = true
    · simp [confirmFirst, find_by_token, List.find?, h]
    · simp only [Bool.not_eq_true] at h
      simp only [find_by_token] at ih
      simp [confirmFirst, find_by_token, List.find?, h, Option.map_eq_none]
        at ih ⊢
      exact ih

/-- Structural characterisation of a successful `confirmFirst`: the user
list splits as `pre ++ u :: post` where `u` is the first holder of the
token, and the output replaces `u` by `confirmUser u`, leaving every
other element in place. -/
theorem confirmFirst_eq_some (users : List User) (t : String)
    (users1 : List User) (h : confirmFirst users t = some users1) :
    ∃ pre u post,
      users = pre ++ u :: post ∧
      u.confirm_token = some t ∧
      users1 = pre ++ confirmUser u :: post ∧
      ∀ v ∈ pre, v.confirm_token ≠ some t := by
  induction users generalizing users1 with
  | nil => simp [confirmFirst] at h
  | cons hd tl ih =>
    by_cases hc : hd.confirm_token = some t
    · refine ⟨[], hd, tl, by simp, hc, ?_, by simp⟩
      simp [confirmFirst, hc] at h
      simpa using h.symm
    · have h2 : (confirmFirst tl t).map (fun l => hd :: l) = some users1 := by
        simpa [confirmFirst, hc] using h
      cases hmt : confirmFirst tl t with
      | none => rw [hmt] at h2; exact absurd h2 (by simp)
      | some l =>
        rw [hmt] at h2
        have hl : hd :: l = users1 := by simpa using h2
        obtain ⟨pre, u, post, htl, htok, hout, hpre⟩ := ih l hmt
        refine ⟨hd :: pre, u, post, by simp [htl], htok, ?_, ?_⟩
        · rw [← hl, hout]; simp
        · intro v hv
          rcases List.mem_cons.mp hv with rfl | hv
          · exact hc
          · exact hpre v hv

/-! ### Helper lemmas about the store queries -/

/-- Lemma: `find_by_email` comes back empty exactly when no stored account
carries the exact searched email string. -/
theorem find_by_email_eq_none_iff (users : List User) (e : String) :
    find_by_email users e = none ↔ ∀ u ∈ users, u.email ≠ e := by
  simp [find_by_email, List.find?_eq_none]

/-- A `find_by_email` hit carries exactly the searched email string. -/
theorem find_by_email_email (users : List User) (e : String) (u : User)
    (h : find_by_email users e = some u) : u.email = e := by
  have h2 : users.find? (fun v => v.email == e) = some u := h
  simpa using List.find?_some h2

/-- A `find_by_email` hit is a member of the store. -/
theorem find_by_email_mem (users : List User) (e : String) (u : User)
    (h : find_by_email users e = some u) : u ∈ users :=
  List.mem_of_find?_eq_some h

/-- Lemma: `find_by_email` over an appended store. -/
theorem find_by_email_append (us vs : List User) (e : String) :
    find_by_email (us ++ vs) e =
      (find_by_email us e).or (find_by_email vs e) :=
  List.find?_append

/-- Lemma: `find_by_token` comes back empty exactly when no stored account
holds the token. -/
theorem find_by_token_eq_none_iff (users : List User) (t : String) :
    find_by_token users t = none ↔
      ∀ u ∈ users, u.confirm_token ≠ some t := by
  simp [find_by_token, List.find?_eq_none]

/-- When the store splits at its first holder of the token,
`find_by_token` returns that holder. -/
theorem find_by_token_split (pre post : List User) (w : User) (t : String)
    (hw : w.confirm_token = some t)
    (hpre : ∀ v ∈ pre, v.confirm_token ≠ some t) :
    find_by_token (pre ++ w :: post) t = some w := by
  have h1 : find_by_token pre t = none :=
    (find_by_token_eq_none_iff pre t).mpr hpre
  have h2 : find_by_token (w :: post) t = some w := by
    unfold find_by_token
    exact List.find?_cons_of_pos post (by simp [hw])
  calc find_by_token (pre ++ w :: post) t
      = (find_by_token pre t).or (find_by_token (w :: post) t) :=
        List.find?_append
    _ = some w := by rw [h1, h2]; rfl

/-- Email count distributes over an appended store. -/
theorem countEmail_append (us vs : List User) (e : String) :
    countEmail (us ++ vs) e = countEmail us e + countEmail vs e := by
  simp [countEmail, List.filter_append]

/-- The email count is zero exactly when no stored account carries the
email. -/
theorem countEmail_eq_zero_iff (users : List User) (e : String) :
    countEmail users e = 0 ↔ ∀ u ∈ users, u.email ≠ e := by
  simp [countEmail, List.length_eq_zero, List.filter_eq_nil_iff]

/-- Token count distributes over an appended store. -/
theorem countToken_append (us vs : List User) (t : String) :
    countToken (us ++ vs) t = countToken us t + countToken vs t := by
  simp [countToken, List.filter_append]

/-- The token count is zero exactly when no stored account holds the
token. -/
theorem countToken_eq_zero_iff (users : List User) (t : String) :
    countToken users t = 0 ↔ ∀ u ∈ users, u.confirm_token ≠ some t := by
  simp [countToken, List.length_eq_zero, List.filter_eq_nil_iff]

/-- Token count of a cons whose head holds the token. -/
theorem countToken_cons_holder (post : List User) (w : User) (t : String)
    (hw : w.confirm_token = some t) :
    countToken (w :: post) t = countToken post t + 1 := by
  simp [countToken, List.filter_cons, hw, Nat.add_comm]

/-! ### Case analysis of `register` -/

/-- A blank required field short-circuits `register`. -/
theorem register_of_blank (env : Env) (st : AppState)
    (cn e r p p2 : Option String) (tok : String) (mailOk : Bool)
    (h : (isBlank e || isBlank p || isBlank p2) = true) :
    register env st cn e r p p2 tok mailOk = (.validationError, st) := by
  simp [register, h]

/-- With no blank field, differing passwords short-circuit `register`. -/
theorem register_of_mismatch (env : Env) (st : AppState)
    (cn e r p p2 : Option String) (tok : String) (mailOk : Bool)
    (hb : (isBlank e || isBlank p || isBlank p2) = false) (hp : p ≠ p2) :
    register env st cn e r p p2 tok mailOk = (.passwordMismatch, st) := by
  simp [register, hb, hp]

/-- With no blank field and matching passwords, an email the validator
rejects short-circuits `register`. -/
theorem register_of_invalidEmail (env : Env) (st : AppState)
    (cn e r p p2 : Option String) (tok : String) (mailOk : Bool)
    (hb : (isBlank e || isBlank p || isBlank p2) = false) (hp : p = p2)
    (hv : env.validEmail (e.getD "") = false) :
    register env st cn e r p p2 tok mailOk = (.invalidEmail, st) := by
  obtain ⟨⟨h1, h2⟩, h3⟩ :
      (isBlank e = false ∧ isBlank p = false) ∧ isBlank p2 = false := by
    simpa using hb
  simp [register, h1, h2, h3, hp, hv]

/-- With all field checks passed, an existing account under the same
email short-circuits `register`. -/
theorem register_of_duplicate (env : Env) (st : AppState)
    (cn e r p p2 : Option String) (tok : String) (mailOk : Bool) (w : User)
    (hb : (isBlank e || isBlank p || isBlank p2) = false) (hp : p = p2)
    (hv : env.validEmail (e.getD "") = true)
    (hf : find_by_email st.users (e.getD "") = some w) :
    register env st cn e r p p2 tok mailOk = (.duplicateAccount, st) := by
  obtain ⟨⟨h1, h2⟩, h3⟩ :
      (isBlank e = false ∧ isBlank p = false) ∧ isBlank p2 = false := by
    simpa using hb
  simp [register, h1, h2, h3, hp, hv, hf]

/-- With every check passed, `register` inserts the fresh unconfirmed
account, records the confirmation-mail attempt, and succeeds. -/
theorem register_of_success (env : Env) (st : AppState)
    (cn e r p p2 : Option String) (tok : String) (mailOk : Bool)
    (hb : (isBlank e || isBlank p || isBlank p2) = false) (hp : p = p2)
    (hv : env.validEmail (e.getD "") = true)
    (hf : find_by_email st.users (e.getD "") = none) :
    register env st cn e r p p2 tok mailOk =
      (.ok,
        { users := st.users ++ [freshUser env st cn e r p tok]
          nextId := st.nextId + 1
          sessionUserId := st.sessionUserId
          outbox := st.outbox ++
            [⟨e.getD "", "AI VideoGen - E-mail megerosites", mailOk⟩] }) := by
  obtain ⟨⟨h1, h2⟩, h3⟩ :
      (isBlank e = false ∧ isBlank p = false) ∧ isBlank p2 = false := by
    simpa using hb
  simp [register, h1, h2, h3, hp, hv, hf, send_email]

/-! ### Frame lemmas: which fields each operation can touch -/

/-- Lemma: `login` never changes the user table, the id counter or the outbox. -/
theorem login_frame (env : Env) (st : AppState) (e p : Option String) :
    (login env st e p).2.users = st.users ∧
    (login env st e p).2.nextId = st.nextId ∧
    (login env st e p).2.outbox = st.outbox := by
  unfold login
  repeat' split
  all_goals exact ⟨rfl, rfl, rfl⟩

/-- Lemma: `contact` never changes the user table, the id counter or the
session. -/
theorem contact_frame (env : Env) (st : AppState)
    (n e s m : Option String) (mailOk : Bool) :
    (contact env st n e s m mailOk).2.users = st.users ∧
    (contact env st n e s m mailOk).2.nextId = st.nextId ∧
    (contact env st n e s m mailOk).2.sessionUserId = st.sessionUserId := by
  unfold contact
  split
  · exact ⟨rfl, rfl, rfl⟩
  · split
    · exact ⟨rfl, rfl, rfl⟩
    · exact ⟨rfl, rfl, rfl⟩

/-- An errored `register` call leaves the whole state untouched. -/
theorem register_error_frame (env : Env) (st : AppState)
    (cn e r p p2 : Option String) (tok : String) (mailOk : Bool)
    (h : (register env st cn e r p p2 tok mailOk).1 ≠ .ok) :
    (register env st cn e r p p2 tok mailOk).2 = st := by
  by_cases hb : (isBlank e || isBlank p || isBlank p2) = true
  · rw [register_of_blank env st cn e r p p2 tok mailOk hb]
  · rw [Bool.not_eq_true] at hb
    by_cases hp : p = p2
    · by_cases hv : env.validEmail (e.getD "") = true
      · cases hf : find_by_email st.users (e.getD "") with
        | some w =>
          rw [register_of_duplicate env st cn e r p p2 tok mailOk w hb hp hv
            hf]
        | none =>
          exact absurd (by
            rw [register_of_success env st cn e r p p2 tok mailOk hb hp hv
              hf]) h
      · rw [Bool.not_eq_true] at hv
        rw [register_of_invalidEmail env st cn e r p p2 tok mailOk hb hp hv]
    · rw [register_of_mismatch env st cn e r p p2 tok mailOk hb hp]

/-! ### Preservation of the confirmation-shape invariant -/

/-- Every public operation preserves the per-account shape invariant. -/
theorem step_shapeOk (env : Env) (st : AppState) (op : Op)
    (h : ∀ u ∈ st.users, shapeOk u) :
    ∀ u ∈ (step env st op).2.users, shapeOk u := by
  cases op with
  | register cn e r p p2 tok mailOk =>
    simp only [step]
    by_cases hb : (isBlank e || isBlank p || isBlank p2) = true
    · rw [register_of_blank env st cn e r p p2 tok mailOk hb]; exact h
    · rw [Bool.not_eq_true] at hb
      by_cases hp : p = p2
      · by_cases hv : env.validEmail (e.getD "") = true
        · cases hf : find_by_email st.users (e.getD "") with
          | some w =>
            rw [register_of_duplicate env st cn e r p p2 tok mailOk w hb hp
              hv hf]
            exact h
          | none =>
            rw [register_of_success env st cn e r p p2 tok mailOk hb hp hv
              hf]
            intro u hu
            simp only [List.mem_append, List.mem_singleton] at hu
            rcases hu with hu | rfl
            · exact h u hu
            · exact Or.inl ⟨rfl, by simp [freshUser]⟩
        · rw [Bool.not_eq_true] at hv
          rw [register_of_invalidEmail env st cn e r p p2 tok mailOk hb hp
            hv]
          exact h
      · rw [register_of_mismatch env st cn e r p p2 tok mailOk hb hp]
        exact h
  | confirm tok =>
    intro u hu
    simp only [step, confirm_email] at hu
    cases hcf : confirmFirst st.users tok with
    | none => rw [hcf] at hu; exact h u hu
    | some l =>
      rw [hcf] at hu
      simp only at hu
      obtain ⟨pre, w, post, hsplit, htok, hout, hpre⟩ :=
        confirmFirst_eq_some st.users tok l hcf
      subst hout
      rcases List.mem_append.mp hu with hu | hu
      · exact h u (by rw [hsplit]; exact List.mem_append_left _ hu)
      · rcases List.mem_cons.mp hu with rfl | hu
        · exact Or.inr ⟨rfl, rfl⟩
        · exact h u (by
            rw [hsplit]
            exact List.mem_append_right _ (List.mem_cons_of_mem _ hu))
  | login e p =>
    intro u hu
    simp only [step] at hu
    rw [(login_frame env st e p).1] at hu
    exact h u hu
  | logout =>
    intro u hu
    exact h u hu
  | contact n e s m mailOk =>
    intro u hu
    simp only [step] at hu
    rw [(contact_frame env st n e s m mailOk).1] at hu
    exact h u hu

/-- The shape invariant holds along any run from a state satisfying it. -/
theorem runFrom_shapeOk (env : Env) (ops : List Op) (st : AppState)
    (h : ∀ u ∈ st.users, shapeOk u) :
    ∀ u ∈ (runFrom env st ops).users, shapeOk u := by
  induction ops generalizing st with
  | nil => exact h
  | cons op rest ih =>
    exact ih (step env st op).2 (step_shapeOk env st op h)

/-- A confirmed account persists, confirmed and under the same identity,
through any single public operation. -/
theorem step_confirmed_persists (env : Env) (st : AppState) (op : Op)
    (u : User) (hu : u ∈ st.users) (hc : u.is_confirmed = true) :
    ∃ u2 ∈ (step env st op).2.users,
      u2.id = u.id ∧ u2.email = u.email ∧ u2.is_confirmed = true := by
  cases op with
  | register cn e r p p2 tok mailOk =>
    simp only [step]
    by_cases hb : (isBlank e || isBlank p || isBlank p2) = true
    · rw [register_of_blank env st cn e r p p2 tok mailOk hb]
      exact ⟨u, hu, rfl, rfl, hc⟩
    · rw [Bool.not_eq_true] at hb
      by_cases hp : p = p2
      · by_cases hv : env.validEmail (e.getD "") = true
        · cases hf : find_by_email st.users (e.getD "") with
          | some w =>
            rw [register_of_duplicate env st cn e r p p2 tok mailOk w hb hp
              hv hf]
            exact ⟨u, hu, rfl, rfl, hc⟩
          | none =>
            rw [register_of_success env st cn e r p p2 tok mailOk hb hp hv
              hf]
            exact ⟨u, List.mem_append_left _ hu, rfl, rfl, hc⟩
        · rw [Bool.not_eq_true] at hv
          rw [register_of_invalidEmail env st cn e r p p2 tok mailOk hb hp
            hv]
          exact ⟨u, hu, rfl, rfl, hc⟩
      · rw [register_of_mismatch env st cn e r p p2 tok mailOk hb hp]
        exact ⟨u, hu, rfl, rfl, hc⟩
  | confirm tok =>
    simp only [step, confirm_email]
    cases hcf : confirmFirst st.users tok with
    | none => exact ⟨u, hu, rfl, rfl, hc⟩
    | some l =>
      simp only
      obtain ⟨pre, w, post, hsplit, htok, hout, hpre⟩ :=
        confirmFirst_eq_some st.users tok l hcf
      subst hout
      rw [hsplit] at hu
      rcases List.mem_append.mp hu with hu | hu
      · exact ⟨u, List.mem_append_left _ hu, rfl, rfl, hc⟩
      · rcases List.mem_cons.mp hu with rfl | hu
        · exact ⟨confirmUser u,
            List.mem_append_right _ (List.mem_cons_self _ _), rfl, rfl, rfl⟩
        · exact ⟨u,
            List.mem_append_right _ (List.mem_cons_of_mem _ hu), rfl, rfl,
            hc⟩
  | login e p =>
    refine ⟨u, ?_, rfl, rfl, hc⟩
    simp only [step]
    rw [(login_frame env st e p).1]
    exact hu
  | logout => exact ⟨u, hu, rfl, rfl, hc⟩
  | contact n e s m mailOk =>
    refine ⟨u, ?_, rfl, rfl, hc⟩
    simp only [step]
    rw [(contact_frame env st n e s m mailOk).1]
    exact hu

/-! ### Claim theorems -/

/-- C1: every account reachable through the public operations
(Register, ConfirmEmail, Login, Logout, SubmitContact) has exactly one
of the two shapes: `is_confirmed = false` with a non-null
`confirm_token`, or `is_confirmed = true` with a null `confirm_token`;
no operation produces any other combination. -/
theorem C1_reachable_account_shape (env : Env) (ops : List Op) :
    ∀ u ∈ (run env ops).users, shapeOk u := by
  apply runFrom_shapeOk
  intro u hu
  simp [initState] at hu

/-- Witness for C1 at a concrete run: one registration followed by one
confirmation, checked on the single resulting account. -/
theorem C1_reachable_account_shape_witness :
    shapeOk
      { id := 1, company_name := some "ACME", email := "a@x.com",
        role := some "dev", password_hash := "H:pw", is_confirmed := true,
        confirm_token := none } :=
  C1_reachable_account_shape testEnv
    [.register (some "ACME") (some "a@x.com") (some "dev") (some "pw")
      (some "pw") "tok1" true,
     .confirm "tok1"]
    { id := 1, company_name := some "ACME", email := "a@x.com",
      role := some "dev", password_hash := "H:pw", is_confirmed := true,
      confirm_token := none }
    (by decide)

/-- C8: `is_confirmed` starts false at account creation, and once true
it is never set back: every public operation carries a confirmed
account to a confirmed account with the same identity. -/
theorem C8_confirmed_monotone (env : Env) (st : AppState) (op : Op)
    (u : User) (cn e r p : Option String) (tok : String)
    (hu : u ∈ st.users) (hc : u.is_confirmed = true) :
    (freshUser env st cn e r p tok).is_confirmed = false ∧
    ∃ u2 ∈ (step env st op).2.users,
      u2.id = u.id ∧ u2.email = u.email ∧ u2.is_confirmed = true :=
  ⟨rfl, step_confirmed_persists env st op u hu hc⟩

/-- Witness for C8: a concrete confirmed account survives a concrete
`ConfirmEmail` step on a two-account store. -/
theorem C8_confirmed_monotone_witness :
    sampleUserA ∈ sampleState.users ∧
    ((freshUser testEnv sampleState none (some "c@x.com") none (some "pw")
      "tok3").is_confirmed = false ∧
    ∃ u2 ∈ (step testEnv sampleState (.confirm "tok2")).2.users,
      u2.id = sampleUserA.id ∧ u2.email = sampleUserA.email ∧
      u2.is_confirmed = true) :=
  ⟨by simp [sampleState],
   C8_confirmed_monotone testEnv sampleState (.confirm "tok2") sampleUserA
     none (some "c@x.com") none (some "pw") "tok3"
     (by simp [sampleState]) rfl⟩

/-- C2: the `register` checks apply in order - blank required field,
password mismatch, invalid email, duplicate account - each yielding its
named error; with every check passed, `register` succeeds and appends
exactly one fresh unconfirmed account holding the fresh token. -/
theorem C2_register_check_order (env : Env) (st : AppState)
    (cn e r p p2 : Option String) (tok : String) (mailOk : Bool) :
    ((isBlank e || isBlank p || isBlank p2) = true →
      register env st cn e r p p2 tok mailOk = (.validationError, st)) ∧
    ((isBlank e || isBlank p || isBlank p2) = false → p ≠ p2 →
      register env st cn e r p p2 tok mailOk = (.passwordMismatch, st)) ∧
    ((isBlank e || isBlank p || isBlank p2) = false → p = p2 →
      env.validEmail (e.getD "") = false →
      register env st cn e r p p2 tok mailOk = (.invalidEmail, st)) ∧
    ((isBlank e || isBlank p || isBlank p2) = false → p = p2 →
      env.validEmail (e.getD "") = true →
      (∃ w, find_by_email st.users (e.getD "") = some w) →
      register env st cn e r p p2 tok mailOk = (.duplicateAccount, st)) ∧
    ((isBlank e || isBlank p || isBlank p2) = false → p = p2 →
      env.validEmail (e.getD "") = true →
      find_by_email st.users (e.getD "") = none →
      (register env st cn e r p p2 tok mailOk).1 = .ok ∧
      (register env st cn e r p p2 tok mailOk).2.users =
        st.users ++ [freshUser env st cn e r p tok] ∧
      (freshUser env st cn e r p tok).is_confirmed = false ∧
      (freshUser env st cn e r p tok).confirm_token = some tok) := by
  refine ⟨?_, ?_, ?_, ?_, ?_⟩
  · intro hb
    exact register_of_blank env st cn e r p p2 tok mailOk hb
  · intro hb hp
    exact register_of_mismatch env st cn e r p p2 tok mailOk hb hp
  · intro hb hp hv
    exact register_of_invalidEmail env st cn e r p p2 tok mailOk hb hp hv
  · rintro hb hp hv ⟨w, hw⟩
    exact register_of_duplicate env st cn e r p p2 tok mailOk w hb hp hv hw
  · intro hb hp hv hf
    rw [register_of_success env st cn e r p p2 tok mailOk hb hp hv hf]
    exact ⟨rfl, rfl, rfl, rfl⟩

/-- Witness for C2: each of the five branches exercised on a concrete
store (`sampleState` holds an account for `a@x.com`). -/
theorem C2_register_check_order_witness :
    register testEnv sampleState none none none none none "t" true =
      (.validationError, sampleState) ∧
    register testEnv sampleState none (some "c@x.com") none (some "p")
      (some "q") "t" true = (.passwordMismatch, sampleState) ∧
    register testEnv sampleState none (some "bad") none (some "p")
      (some "p") "t" true = (.invalidEmail, sampleState) ∧
    register testEnv sampleState none (some "a@x.com") none (some "p")
      (some "p") "t" true = (.duplicateAccount, sampleState) ∧
    ((register testEnv sampleState none (some "c@x.com") none (some "p")
        (some "p") "t" true).1 = .ok ∧
      (register testEnv sampleState none (some "c@x.com") none (some "p")
        (some "p") "t" true).2.users =
        sampleState.users ++
          [freshUser testEnv sampleState none (some "c@x.com") none
            (some "p") "t"] ∧
      (freshUser testEnv sampleState none (some "c@x.com") none (some "p")
        "t").is_confirmed = false ∧
      (freshUser testEnv sampleState none (some "c@x.com") none (some "p")
        "t").confirm_token = some "t") :=
  ⟨(C2_register_check_order testEnv sampleState none none none none none
      "t" true).1 rfl,
   (C2_register_check_order testEnv sampleState none (some "c@x.com") none
      (some "p") (some "q") "t" true).2.1 (by decide) (by decide),
   (C2_register_check_order testEnv sampleState none (some "bad") none
      (some "p") (some "p") "t" true).2.2.1 (by decide) rfl (by decide),
   (C2_register_check_order testEnv sampleState none (some "a@x.com") none
      (some "p") (some "p") "t" true).2.2.2.1 (by decide) rfl (by decide)
      ⟨sampleUserA, by decide⟩,
   (C2_register_check_order testEnv sampleState none (some "c@x.com") none
      (some "p") (some "p") "t" true).2.2.2.2 (by decide) rfl (by decide)
      (by decide)⟩

/-- C3: an errored `register` call leaves the user store unchanged - no
account is created - and after a duplicate attempt the store still holds
exactly one account for that email. -/
theorem C3_register_error_no_account (env : Env) (st : AppState)
    (cn e r p p2 : Option String) (tok : String) (mailOk : Bool)
    (h : (register env st cn e r p p2 tok mailOk).1 ≠ .ok) :
    (register env st cn e r p p2 tok mailOk).2 = st ∧
    countEmail (register env st cn e r p p2 tok mailOk).2.users
      (e.getD "") = countEmail st.users (e.getD "") ∧
    (countEmail st.users (e.getD "") = 1 →
      countEmail (register env st cn e r p p2 tok mailOk).2.users
        (e.getD "") = 1) := by
  have hs := register_error_frame env st cn e r p p2 tok mailOk h
  rw [hs]
  exact ⟨rfl, rfl, fun h1 => h1⟩

/-- Witness for C3: a concrete duplicate attempt against `sampleState`
(which already stores `a@x.com`) leaves the store untouched. -/
theorem C3_register_error_no_account_witness :
    (register testEnv sampleState none (some "a@x.com") none (some "p")
      (some "p") "t" true).2 = sampleState ∧
    countEmail (register testEnv sampleState none (some "a@x.com") none
      (some "p") (some "p") "t" true).2.users "a@x.com" =
      countEmail sampleState.users "a@x.com" ∧
    (countEmail sampleState.users "a@x.com" = 1 →
      countEmail (register testEnv sampleState none (some "a@x.com") none
        (some "p") (some "p") "t" true).2.users "a@x.com" = 1) :=
  C3_register_error_no_account testEnv sampleState none (some "a@x.com")
    none (some "p") (some "p") "t" true (by decide)

/-- Lemma: `confirm_email` on a token nobody holds: error, state unchanged. -/
theorem confirm_email_of_none (st : AppState) (tok : String)
    (h : find_by_token st.users tok = none) :
    confirm_email st tok = (.invalidOrExpiredToken, st) := by
  unfold confirm_email
  rw [(confirmFirst_eq_none_iff st.users tok).mpr h]

/-- Lemma: `confirm_email` when `confirmFirst` succeeds: ok, users replaced. -/
theorem confirm_email_of_some (st : AppState) (tok : String)
    (l : List User) (hcf : confirmFirst st.users tok = some l) :
    confirm_email st tok = (.ok, { st with users := l }) := by
  unfold confirm_email
  rw [hcf]

/-- C4: `ConfirmEmail(token)` returns `InvalidOrExpiredToken` when no
account holds the token (including never-issued tokens); when one
account holds it, that account becomes confirmed with its token set to
null, so a second `ConfirmEmail` call with the same token returns
`InvalidOrExpiredToken`. -/
theorem C4_confirm_token_consumed (st : AppState) (tok : String) :
    (find_by_token st.users tok = none →
      confirm_email st tok = (.invalidOrExpiredToken, st)) ∧
    (∀ u, find_by_token st.users tok = some u →
      countToken st.users tok ≤ 1 →
      (confirm_email st tok).1 = .ok ∧
      (∃ u2 ∈ (confirm_email st tok).2.users,
        u2.id = u.id ∧ u2.is_confirmed = true ∧ u2.confirm_token = none) ∧
      (confirm_email (confirm_email st tok).2 tok).1 =
        .invalidOrExpiredToken) := by
  constructor
  · exact confirm_email_of_none st tok
  · intro u hf hcount
    cases hcf : confirmFirst st.users tok with
    | none =>
      rw [(confirmFirst_eq_none_iff st.users tok).mp hcf] at hf
      exact absurd hf (by simp)
    | some l =>
      obtain ⟨pre, w, post, hsplit, htok, hout, hpre⟩ :=
        confirmFirst_eq_some st.users tok l hcf
      have hfw : find_by_token st.users tok = some w := by
        rw [hsplit]
        exact find_by_token_split pre post w tok htok hpre
      rw [hf] at hfw
      obtain rfl : u = w := Option.some.inj hfw
      have hce := confirm_email_of_some st tok l hcf
      have husers : (confirm_email st tok).2.users =
          pre ++ confirmUser u :: post := by
        rw [hce, hout]
      have hc0 : countToken post tok = 0 := by
        rw [hsplit, countToken_append,
          countToken_cons_holder post u tok htok] at hcount
        omega
      have hpost : ∀ v ∈ post, v.confirm_token ≠ some tok :=
        (countToken_eq_zero_iff post tok).mp hc0
      refine ⟨by rw [hce], ?_, ?_⟩
      · refine ⟨confirmUser u, ?_, rfl, rfl, rfl⟩
        rw [husers]
        exact List.mem_append_right _ (List.mem_cons_self _ _)
      · have hnone : find_by_token (confirm_email st tok).2.users tok =
            none := by
          rw [husers]
          refine (find_by_token_eq_none_iff _ _).mpr ?_
          intro v hv
          rcases List.mem_append.mp hv with hv | hv
          · exact hpre v hv
          · rcases List.mem_cons.mp hv with rfl | hv
            · simp [confirmUser]
            · exact hpost v hv
        rw [confirm_email_of_none _ tok hnone]

/-- Witness for C4: on `sampleState`, a never-issued token fails, while
`tok2` confirms account `b@x.com` and the follow-up call fails. -/
theorem C4_confirm_token_consumed_witness :
    confirm_email sampleState "zzz" =
      (.invalidOrExpiredToken, sampleState) ∧
    ((confirm_email sampleState "tok2").1 = .ok ∧
      (∃ u2 ∈ (confirm_email sampleState "tok2").2.users,
        u2.id = sampleUserB.id ∧ u2.is_confirmed = true ∧
        u2.confirm_token = none) ∧
      (confirm_email (confirm_email sampleState "tok2").2 "tok2").1 =
        .invalidOrExpiredToken) :=
  ⟨(C4_confirm_token_consumed sampleState "zzz").1 (by decide),
   (C4_confirm_token_consumed sampleState "tok2").2 sampleUserB
     (by decide) (by decide)⟩

/-- C5: with non-empty inputs, `login` returns the very same
`InvalidCredentials` error - with the state unchanged - both when no
account exists for the email and when the account exists but the
password fails verification, so the result does not reveal whether the
email is registered. -/
theorem C5_login_enumeration_resistant (env : Env) (st : AppState)
    (e p : Option String)
    (hbe : isBlank e = false) (hbp : isBlank p = false)
    (h : find_by_email st.users (e.getD "") = none ∨
      ∃ u, find_by_email st.users (e.getD "") = some u ∧
        env.verify u.password_hash (p.getD "") = false) :
    login env st e p = (.invalidCredentials, st) := by
  rcases h with hnone | ⟨u, hu, hv⟩
  · simp [login, hbe, hbp, hnone]
  · simp [login, hbe, hbp, hu, hv]

/-- Witness for C5: an unknown email and a wrong password on a known
email produce the identical result on `sampleState`. -/
theorem C5_login_enumeration_resistant_witness :
    login testEnv sampleState (some "nobody@x.com") (some "pw") =
      (.invalidCredentials, sampleState) ∧
    login testEnv sampleState (some "a@x.com") (some "wrong") =
      (.invalidCredentials, sampleState) :=
  ⟨C5_login_enumeration_resistant testEnv sampleState (some "nobody@x.com")
      (some "pw") (by decide) (by decide) (Or.inl (by decide)),
   C5_login_enumeration_resistant testEnv sampleState (some "a@x.com")
      (some "wrong") (by decide) (by decide)
      (Or.inr ⟨sampleUserA, by decide, by decide⟩)⟩

/-- C6: on a correct password for an existing account, `login` returns
`EmailNotConfirmed` with the state (hence the session) unchanged when
the account is unconfirmed, and succeeds binding the session to exactly
that account's identifier when it is confirmed. -/
theorem C6_login_confirmation_gate (env : Env) (st : AppState)
    (e p : Option String) (u : User)
    (hbe : isBlank e = false) (hbp : isBlank p = false)
    (hf : find_by_email st.users (e.getD "") = some u)
    (hv : env.verify u.password_hash (p.getD "") = true) :
    (u.is_confirmed = false →
      login env st e p = (.emailNotConfirmed, st)) ∧
    (u.is_confirmed = true →
      login env st e p = (.ok, { st with sessionUserId := some u.id })) := by
  constructor
  · intro hc
    simp [login, hbe, hbp, hf, hv, hc]
  · intro hc
    simp [login, hbe, hbp, hf, hv, hc]

/-- Witness for C6: on `sampleState`, the unconfirmed account `b@x.com`
is refused with `EmailNotConfirmed` while the confirmed account
`a@x.com` logs in and the session holds its id. -/
theorem C6_login_confirmation_gate_witness :
    login testEnv sampleState (some "b@x.com") (some "pw2") =
      (.emailNotConfirmed, sampleState) ∧
    login testEnv sampleState (some "a@x.com") (some "pw") =
      (.ok, { sampleState with sessionUserId := some sampleUserA.id }) :=
  ⟨(C6_login_confirmation_gate testEnv sampleState (some "b@x.com")
      (some "pw2") sampleUserB (by decide) (by decide) (by decide)
      (by decide)).1 rfl,
   (C6_login_confirmation_gate testEnv sampleState (some "a@x.com")
      (some "pw") sampleUserA (by decide) (by decide) (by decide)
      (by decide)).2 rfl⟩

/-- C7: a Mail Dispatcher failure never changes the workflow result:
`register` and `contact` return the same result kind whether the send
succeeds or fails; in particular a passing registration returns success
with the account row present for either outcome, and a fully populated,
valid contact submission returns success for either outcome. -/
theorem C7_mail_failure_invisible (env : Env) (st : AppState)
    (cn e r p p2 : Option String) (tok : String)
    (n ce s m : Option String) :
    (register env st cn e r p p2 tok true).1 =
      (register env st cn e r p p2 tok false).1 ∧
    ((isBlank e || isBlank p || isBlank p2) = false → p = p2 →
      env.validEmail (e.getD "") = true →
      find_by_email st.users (e.getD "") = none →
      ∀ mailOk, (register env st cn e r p p2 tok mailOk).1 = .ok ∧
        freshUser env st cn e r p tok ∈
          (register env st cn e r p p2 tok mailOk).2.users) ∧
    (contact env st n ce s m true).1 = (contact env st n ce s m false).1 ∧
    ((isBlank n || isBlank ce || isBlank s || isBlank m) = false →
      env.validEmail (ce.getD "") = true →
      ∀ mailOk, (contact env st n ce s m mailOk).1 = .ok) := by
  refine ⟨?_, ?_, ?_, ?_⟩
  · by_cases hb : (isBlank e || isBlank p || isBlank p2) = true
    · rw [register_of_blank env st cn e r p p2 tok true hb,
        register_of_blank env st cn e r p p2 tok false hb]
    · rw [Bool.not_eq_true] at hb
      by_cases hp : p = p2
      · by_cases hv : env.validEmail (e.getD "") = true
        · cases hf : find_by_email st.users (e.getD "") with
          | some w =>
            rw [register_of_duplicate env st cn e r p p2 tok true w hb hp
                hv hf,
              register_of_duplicate env st cn e r p p2 tok false w hb hp
                hv hf]
          | none =>
            rw [register_of_success env st cn e r p p2 tok true hb hp hv
                hf,
              register_of_success env st cn e r p p2 tok false hb hp hv
                hf]
        · rw [Bool.not_eq_true] at hv
          rw [register_of_invalidEmail env st cn e r p p2 tok true hb hp
              hv,
            register_of_invalidEmail env st cn e r p p2 tok false hb hp
              hv]
      · rw [register_of_mismatch env st cn e r p p2 tok true hb hp,
          register_of_mismatch env st cn e r p p2 tok false hb hp]
  · intro hb hp hv hf mailOk
    rw [register_of_success env st cn e r p p2 tok mailOk hb hp hv hf]
    exact ⟨rfl, List.mem_append_right _ (List.mem_singleton.mpr rfl)⟩
  · by_cases hb : (isBlank n || isBlank ce || isBlank s || isBlank m) =
        true
    · simp [contact, hb]
    · rw [Bool.not_eq_true] at hb
      by_cases hv : env.validEmail (ce.getD "") = true
      · simp [contact, hb, hv]
      · rw [Bool.not_eq_true] at hv
        simp [contact, hb, hv]
  · intro hb hv mailOk
    simp [contact, hb, hv]

/-- Witness for C7: registration of `c@x.com` against `sampleState` and
a populated contact submission, with the dispatcher failing. -/
theorem C7_mail_failure_invisible_witness :
    (register testEnv sampleState none (some "c@x.com") none (some "p")
      (some "p") "t" true).1 =
      (register testEnv sampleState none (some "c@x.com") none (some "p")
        (some "p") "t" false).1 ∧
    ((register testEnv sampleState none (some "c@x.com") none (some "p")
        (some "p") "t" false).1 = .ok ∧
      freshUser testEnv sampleState none (some "c@x.com") none (some "p")
        "t" ∈
        (register testEnv sampleState none (some "c@x.com") none (some "p")
          (some "p") "t" false).2.users) ∧
    (contact testEnv sampleState (some "Bob") (some "c@x.com") (some "Hi")
      (some "Msg") true).1 =
      (contact testEnv sampleState (some "Bob") (some "c@x.com") (some "Hi")
        (some "Msg") false).1 ∧
    (contact testEnv sampleState (some "Bob") (some "c@x.com") (some "Hi")
      (some "Msg") false).1 = .ok :=
  ⟨(C7_mail_failure_invisible testEnv sampleState none (some "c@x.com")
      none (some "p") (some "p") "t" (some "Bob") (some "c@x.com")
      (some "Hi") (some "Msg")).1,
   (C7_mail_failure_invisible testEnv sampleState none (some "c@x.com")
      none (some "p") (some "p") "t" (some "Bob") (some "c@x.com")
      (some "Hi") (some "Msg")).2.1 (by decide) rfl (by decide) (by decide)
      false,
   (C7_mail_failure_invisible testEnv sampleState none (some "c@x.com")
      none (some "p") (some "p") "t" (some "Bob") (some "c@x.com")
      (some "Hi") (some "Msg")).2.2.1,
   (C7_mail_failure_invisible testEnv sampleState none (some "c@x.com")
      none (some "p") (some "p") "t" (some "Bob") (some "c@x.com")
      (some "Hi") (some "Msg")).2.2.2 (by decide) (by decide) false⟩

/-- C9: email comparison is exact case-sensitive string equality: a
`find_by_email` hit carries exactly the searched raw string; two
registrations with distinct email strings (in particular strings
differing only in letter case) both pass the duplicate check, creating
two distinct accounts that store the raw submitted strings; and `login`
misses every account whose stored email is not literally the submitted
string. -/
theorem C9_email_case_sensitive (env : Env) (st : AppState)
    (cn1 cn2 r1 r2 : Option String) (e1 e2 p1 p2 tok1 tok2 : String)
    (mo1 mo2 : Bool)
    (hne : e1 ≠ e2) (he1 : e1 ≠ "") (he2 : e2 ≠ "")
    (hp1 : p1 ≠ "") (hp2 : p2 ≠ "")
    (hv1 : env.validEmail e1 = true) (hv2 : env.validEmail e2 = true)
    (hf1 : find_by_email st.users e1 = none)
    (hf2 : find_by_email st.users e2 = none) :
    (∀ (users : List User) (e : String) (u : User),
      find_by_email users e = some u → u.email = e) ∧
    (register env st cn1 (some e1) r1 (some p1) (some p1) tok1 mo1).1 =
      .ok ∧
    (register env
      (register env st cn1 (some e1) r1 (some p1) (some p1) tok1 mo1).2
      cn2 (some e2) r2 (some p2) (some p2) tok2 mo2).1 = .ok ∧
    (∃ u1 u2,
      (register env
        (register env st cn1 (some e1) r1 (some p1) (some p1) tok1 mo1).2
        cn2 (some e2) r2 (some p2) (some p2) tok2 mo2).2.users =
        st.users ++ [u1, u2] ∧
      u1.email = e1 ∧ u2.email = e2 ∧ u1 ≠ u2) ∧
    (∀ e3 pw : String, e3 ≠ "" → pw ≠ "" → e3 ≠ e1 → e3 ≠ e2 →
      (∀ u ∈ st.users, u.email ≠ e3) →
      (login env
        (register env
          (register env st cn1 (some e1) r1 (some p1) (some p1) tok1
            mo1).2
          cn2 (some e2) r2 (some p2) (some p2) tok2 mo2).2
        (some e3) (some pw)).1 = .invalidCredentials) := by
  have hb1 :
      (isBlank (some e1) || isBlank (some p1) || isBlank (some p1)) =
        false := by
    simp [isBlank, he1, hp1]
  have hb2 :
      (isBlank (some e2) || isBlank (some p2) || isBlank (some p2)) =
        false := by
    simp [isBlank, he2, hp2]
  have hr1 := register_of_success env st cn1 (some e1) r1 (some p1)
    (some p1) tok1 mo1 hb1 rfl hv1 hf1
  have hst1 :
      (register env st cn1 (some e1) r1 (some p1) (some p1) tok1
        mo1).2.users =
        st.users ++ [freshUser env st cn1 (some e1) r1 (some p1) tok1] :=
    by rw [hr1]
  have hf2s :
      find_by_email
        [freshUser env st cn1 (some e1) r1 (some p1) tok1] e2 = none := by
    refine (find_by_email_eq_none_iff _ _).mpr ?_
    intro u hu
    rw [List.mem_singleton] at hu
    subst hu
    exact hne
  have hf2' :
      find_by_email
        (register env st cn1 (some e1) r1 (some p1) (some p1) tok1
          mo1).2.users e2 = none := by
    rw [hst1, find_by_email_append, hf2, hf2s]
    rfl
  have hr2 := register_of_success env
    (register env st cn1 (some e1) r1 (some p1) (some p1) tok1 mo1).2
    cn2 (some e2) r2 (some p2) (some p2) tok2 mo2 hb2 rfl hv2 hf2'
  have hst2 :
      (register env
        (register env st cn1 (some e1) r1 (some p1) (some p1) tok1 mo1).2
        cn2 (some e2) r2 (some p2) (some p2) tok2 mo2).2.users =
        st.users ++
          [freshUser env st cn1 (some e1) r1 (some p1) tok1,
           freshUser env
             (register env st cn1 (some e1) r1 (some p1) (some p1) tok1
               mo1).2 cn2 (some e2) r2 (some p2) tok2] := by
    rw [hr2]
    simp only [hst1, List.append_assoc]
    rfl
  refine ⟨fun users e u h => find_by_email_email users e u h,
    by rw [hr1], by rw [hr2], ?_, ?_⟩
  · refine ⟨freshUser env st cn1 (some e1) r1 (some p1) tok1,
      freshUser env
        (register env st cn1 (some e1) r1 (some p1) (some p1) tok1 mo1).2
        cn2 (some e2) r2 (some p2) tok2, hst2, rfl, rfl, ?_⟩
    intro hcontra
    exact hne (congrArg User.email hcontra)
  · intro e3 pw he3 hpw h31 h32 hst
    have hb3 : isBlank (some e3) = false := by simp [isBlank, he3]
    have hbp : isBlank (some pw) = false := by simp [isBlank, hpw]
    have hfe3 :
        find_by_email
          (register env
            (register env st cn1 (some e1) r1 (some p1) (some p1) tok1
              mo1).2
            cn2 (some e2) r2 (some p2) (some p2) tok2 mo2).2.users e3 =
          none := by
      rw [hst2]
      refine (find_by_email_eq_none_iff _ _).mpr ?_
      intro u hu
      rcases List.mem_append.mp hu with hu | hu
      · exact hst u hu
      · rcases List.mem_cons.mp hu with rfl | hu
        · exact fun hh => h31 hh.symm
        · rw [List.mem_singleton] at hu
          subst hu
          exact fun hh => h32 hh.symm
    simp [login, hb3, hbp, hfe3]

/-- Witness for C9: `A@x.com` and `a@x.com`, differing only in case,
both register against the empty store, and a third casing `A@X.COM`
cannot log in. -/
theorem C9_email_case_sensitive_witness :
    (register testEnv initState none (some "A@x.com") none (some "pw")
      (some "pw") "t1" true).1 = .ok ∧
    (register testEnv
      (register testEnv initState none (some "A@x.com") none (some "pw")
        (some "pw") "t1" true).2
      none (some "a@x.com") none (some "pw") (some "pw") "t2" true).1 =
      .ok ∧
    (∃ u1 u2,
      (register testEnv
        (register testEnv initState none (some "A@x.com") none (some "pw")
          (some "pw") "t1" true).2
        none (some "a@x.com") none (some "pw") (some "pw") "t2"
        true).2.users = initState.users ++ [u1, u2] ∧
      u1.email = "A@x.com" ∧ u2.email = "a@x.com" ∧ u1 ≠ u2) ∧
    (login testEnv
      (register testEnv
        (register testEnv initState none (some "A@x.com") none (some "pw")
          (some "pw") "t1" true).2
        none (some "a@x.com") none (some "pw") (some "pw") "t2" true).2
      (some "A@X.COM") (some "pw")).1 = .invalidCredentials := by
  have h := C9_email_case_sensitive testEnv initState none none none none
    "A@x.com" "a@x.com" "pw" "pw" "t1" "t2" true true (by decide)
    (by decide) (by decide) (by decide) (by decide) (by decide)
    (by decide) (by decide) (by decide)
  exact ⟨h.2.1, h.2.2.1, h.2.2.2.1,
    h.2.2.2.2 "A@X.COM" "pw" (by decide) (by decide) (by decide)
      (by decide) (by decide)⟩

/-- C10: a successful `confirm_email` call rewrites exactly one entry of
the user table - the first holder of the token - flipping only its
`is_confirmed` and `confirm_token` fields while keeping its `id`,
`email`, `password_hash`, `company_name` and `role`; every other
account, and the session, id counter and outbox, are untouched. -/
theorem C10_confirm_frame (st : AppState) (tok : String)
    (h : (confirm_email st tok).1 = .ok) :
    (∃ pre u post,
      st.users = pre ++ u :: post ∧
      u.confirm_token = some tok ∧
      (confirm_email st tok).2.users = pre ++ confirmUser u :: post ∧
      (confirmUser u).id = u.id ∧
      (confirmUser u).email = u.email ∧
      (confirmUser u).password_hash = u.password_hash ∧
      (confirmUser u).company_name = u.company_name ∧
      (confirmUser u).role = u.role ∧
      (confirmUser u).is_confirmed = true ∧
      (confirmUser u).confirm_token = none) ∧
    (confirm_email st tok).2.nextId = st.nextId ∧
    (confirm_email st tok).2.sessionUserId = st.sessionUserId ∧
    (confirm_email st tok).2.outbox = st.outbox := by
  cases hcf : confirmFirst st.users tok with
  | none =>
    rw [confirm_email_of_none st tok
      ((confirmFirst_eq_none_iff st.users tok).mp hcf)] at h
    exact absurd h (by simp)
  | some l =>
    have hce := confirm_email_of_some st tok l hcf
    obtain ⟨pre, u, post, hsplit, htok, hout, hpre⟩ :=
      confirmFirst_eq_some st.users tok l hcf
    rw [hce]
    exact ⟨⟨pre, u, post, hsplit, htok, by rw [hout], rfl, rfl, rfl, rfl,
      rfl, rfl, rfl⟩, rfl, rfl, rfl⟩

/-- Witness for C10: confirming `tok2` on `sampleState` rewrites only
the second account. -/
theorem C10_confirm_frame_witness :
    (∃ pre u post,
      sampleState.users = pre ++ u :: post ∧
      u.confirm_token = some "tok2" ∧
      (confirm_email sampleState "tok2").2.users =
        pre ++ confirmUser u :: post ∧
      (confirmUser u).id = u.id ∧
      (confirmUser u).email = u.email ∧
      (confirmUser u).password_hash = u.password_hash ∧
      (confirmUser u).company_name = u.company_name ∧
      (confirmUser u).role = u.role ∧
      (confirmUser u).is_confirmed = true ∧
      (confirmUser u).confirm_token = none) ∧
    (confirm_email sampleState "tok2").2.nextId = sampleState.nextId ∧
    (confirm_email sampleState "tok2").2.sessionUserId =
      sampleState.sessionUserId ∧
    (confirm_email sampleState "tok2").2.outbox = sampleState.outbox :=
  C10_confirm_frame sampleState "tok2" (by decide)

end AppCore
